import Mathlib

/-!
Verification of the mall_monitor snapshot-diff program (src/main.py).

The Python source is shallowly embedded: the `Point` dataclass and the
`ChangeReport` dataclass become structures; the Python dicts built by
`analyze_changes` become insertion-ordered association lists with
last-write-wins overwrite, exactly matching CPython dict semantics
(a duplicate key keeps its original position and gets the new value);
JSON persistence is modelled at the JSON-value level; the two vendor
ingestion routines are modelled as functions from a fetch outcome to a
trace of write effects.  Floating point percentages are modelled over
the rationals, with the round-half-to-even rule that Python round uses.
-/

/-- Embedding of the Point dataclass (src/main.py lines 9-16). -/
structure Point where
  id : String
  name : String
  parsed_categories : List String := []
  assigned_categories : List String := []
  parsing_date : String := ""
  status : String := "opened"
deriving Repr, DecidableEq, Inhabited

/-- Whitespace test used by Python str.strip on the ASCII range. -/
def isSpaceChar (c : Char) : Bool := c = ' ' || c = '\t' || c = '\n' || c = '\r'

/-- ASCII lower-casing of one character, as Python str.lower acts on the ASCII range. -/
def lowerChar (c : Char) : Char :=
  if 'A' ≤ c && c ≤ 'Z' then Char.ofNat (c.toNat + 32) else c

/-- Remove leading and trailing whitespace from a character list. -/
def trimChars (l : List Char) : List Char :=
  ((l.dropWhile isSpaceChar).reverse.dropWhile isSpaceChar).reverse

/-- Embedding of normalize_name (lines 71-72): strip surrounding whitespace and
lower-case, realised over the character list so that it evaluates in the kernel. -/
def normalize_name (name : String) : String := ⟨(trimChars name.data).map lowerChar⟩

/-- The reconciliation key of a Point. -/
def pointKey (s : Point) : String := normalize_name s.name

/-- A Python dict from normalized names to Points, kept as an insertion-ordered list. -/
abbrev PyDict := List (String × Point)

/-- One dict assignment d[k] = v with CPython semantics: if the key is present,
the value at its existing position is overwritten; otherwise the pair is appended. -/
def dictInsert (d : PyDict) (k : String) (v : Point) : PyDict :=
  if d.any (fun e => e.1 = k) then
    d.map (fun e => if e.1 = k then (k, v) else e)
  else
    d ++ [(k, v)]

/-- The dict comprehension of lines 75-76: insert every shop under its normalized name,
in iteration order, so that the last shop with a given key wins. -/
def buildDict (shops : List Point) : PyDict :=
  shops.foldl (fun d s => dictInsert d (pointKey s) s) []

/-- Dict lookup d[k]. -/
def dictLookup (d : PyDict) (k : String) : Option Point :=
  (d.find? (fun e => e.1 = k)).map Prod.snd

/-- The list of keys of a dict, in insertion order. -/
def dictKeys (d : PyDict) : List String := d.map Prod.fst

/-- Embedding of the per-field change record {old, new} stored under the id key. -/
structure IdChange where
  old : String
  new : String
deriving Repr, DecidableEq

/-- Embedding of the per-field change record {old, new} stored under the status key. -/
structure StatusChange where
  old : String
  new : String
deriving Repr, DecidableEq

/-- Embedding of the categories change record (lines 109-114). -/
structure CategoryChange where
  added : List String
  removed : List String
  total_old : Nat
  total_new : Nat
deriving Repr, DecidableEq

/-- The changes dict of lines 93-114: each tracked field is present or absent. -/
structure Changes where
  id : Option IdChange := none
  status : Option StatusChange := none
  categories : Option CategoryChange := none
deriving Repr, DecidableEq

/-- Truthiness of the Python changes dict: non-empty iff some entry was added. -/
def Changes.nonempty (c : Changes) : Bool :=
  c.id.isSome || c.status.isSome || c.categories.isSome

/-- Python set equality of two lists of strings viewed as sets. -/
def listSetEq (a b : List String) : Bool :=
  a.all (fun x => decide (x ∈ b)) && b.all (fun x => decide (x ∈ a))

/-- The body of the loop over remaining names (lines 93-114): compare one old
Point with one new Point field by field.  Set differences are realised as
duplicate-free filtered lists, matching list(new_cats - old_cats). -/
def detectChanges (old_shop new_shop : Point) : Changes :=
  let idc : Option IdChange :=
    if old_shop.id ≠ new_shop.id then some ⟨old_shop.id, new_shop.id⟩ else none
  let stc : Option StatusChange :=
    if old_shop.status ≠ new_shop.status then some ⟨old_shop.status, new_shop.status⟩ else none
  let old_cats := old_shop.parsed_categories
  let new_cats := new_shop.parsed_categories
  let catc : Option CategoryChange :=
    if ¬ (listSetEq old_cats new_cats) then
      let added := new_cats.eraseDups.filter (fun c => decide (c ∉ old_cats))
      let removed := old_cats.eraseDups.filter (fun c => decide (c ∉ new_cats))
      if added ≠ [] ∨ removed ≠ [] then
        some ⟨added, removed, old_cats.eraseDups.length, new_cats.eraseDups.length⟩
      else none
    else none
  ⟨idc, stc, catc⟩

/-- One entry of changed_shops (lines 117-122). -/
structure ChangedShop where
  name : String
  old_shop : Point
  new_shop : Point
  changes : Changes
deriving Repr, DecidableEq

/-- Round half to even at the hundredths place, the rule Python round(x, 2) follows;
the binary representation error of CPython floats is not modelled. -/
def pyRound2 (q : ℚ) : ℚ :=
  let x := q * 100
  let f := ⌊x⌋
  let r := x - f
  let n : ℤ :=
    if r < 1/2 then f
    else if 1/2 < r then f + 1
    else if f % 2 = 0 then f else f + 1
  (n : ℚ) / 100

/-- The stats dict of lines 124-132. -/
structure Stats where
  total_before : Nat
  total_after : Nat
  new_count : Nat
  disappeared_count : Nat
  changed_count : Nat
  unchanged_count : Nat
  change_percentage : ℚ
deriving Repr, DecidableEq

/-- Embedding of the ChangeReport dataclass (lines 18-26). -/
structure ChangeReport where
  date : String
  total_before : Nat
  total_after : Nat
  new_shops : List Point
  disappeared_shops : List Point
  changed_shops : List ChangedShop
  stats : Stats
deriving Repr, DecidableEq

/-- The key list of one side of the comparison: set(old_dict.keys()) of line 78. -/
def namesOf (shops : List Point) : List String := dictKeys (buildDict shops)

/-- Keys only present on the new side (line 81). -/
def appearedNames (old_shops new_shops : List Point) : List String :=
  (namesOf new_shops).filter (fun n => decide (n ∉ namesOf old_shops))

/-- Keys only present on the old side (line 82). -/
def disappearedNames (old_shops new_shops : List Point) : List String :=
  (namesOf old_shops).filter (fun n => decide (n ∉ namesOf new_shops))

/-- Keys present on both sides (line 83). -/
def remainingNames (old_shops new_shops : List Point) : List String :=
  (namesOf old_shops).filter (fun n => decide (n ∈ namesOf new_shops))

/-- One iteration of the loop of lines 89-122: look both Points up, detect
field changes, and keep the entry only when the changes dict is non-empty. -/
def changeEntry (old_dict new_dict : PyDict) (name : String) : Option ChangedShop :=
  match dictLookup old_dict name, dictLookup new_dict name with
  | some old_shop, some new_shop =>
      let changes := detectChanges old_shop new_shop
      if changes.nonempty then
        some ⟨old_shop.name, old_shop, new_shop, changes⟩
      else none
  | _, _ => none

/-- The new_shops_list of line 85. -/
def newShopsList (old_shops new_shops : List Point) : List Point :=
  (appearedNames old_shops new_shops).filterMap (dictLookup (buildDict new_shops))

/-- The disappeared_shops_list of line 86. -/
def disappearedShopsList (old_shops new_shops : List Point) : List Point :=
  (disappearedNames old_shops new_shops).filterMap (dictLookup (buildDict old_shops))

/-- The changed_shops_list of lines 88-122. -/
def changedShopsList (old_shops new_shops : List Point) : List ChangedShop :=
  (remainingNames old_shops new_shops).filterMap
    (changeEntry (buildDict old_shops) (buildDict new_shops))

/-- Embedding of analyze_changes (lines 74-144).  The current-time stamp
datetime.now() is passed in as the argument now; everything else is a pure
function of the two input collections.  CPython iterates its sets in a
hash-dependent but per-process deterministic order; the embedding fixes the
insertion order of the underlying dicts as that order. -/
def analyze_changes (now : String) (old_shops new_shops : List Point) : ChangeReport :=
  let new_shops_list := newShopsList old_shops new_shops
  let disappeared_shops_list := disappearedShopsList old_shops new_shops
  let changed_shops_list := changedShopsList old_shops new_shops
  let stats : Stats :=
    { total_before := old_shops.length
      total_after := new_shops.length
      new_count := new_shops_list.length
      disappeared_count := disappeared_shops_list.length
      changed_count := changed_shops_list.length
      unchanged_count := (remainingNames old_shops new_shops).length - changed_shops_list.length
      change_percentage :=
        pyRound2 (((new_shops.length : ℚ) - (old_shops.length : ℚ))
          / max (old_shops.length : ℚ) 1 * 100) }
  { date := now
    total_before := old_shops.length
    total_after := new_shops.length
    new_shops := new_shops_list
    disappeared_shops := disappeared_shops_list
    changed_shops := changed_shops_list
    stats := stats }

/-- A fragment of the JSON values the snapshot file can hold: strings, arrays
and objects, which is the shape save_new_shops produces and load_old_shops reads. -/
inductive Json where
  | str : String → Json
  | arr : List Json → Json
  | obj : List (String × Json) → Json

/-- The observable content of the snapshot file. -/
inductive FileContent where
  | absent : FileContent
  | malformed : FileContent
  | json : Json → FileContent

/-- The asdict serialization of one Point, as json.dump writes it (lines 60-66). -/
def savePoint (p : Point) : Json :=
  .obj [("id", .str p.id),
        ("name", .str p.name),
        ("parsed_categories", .arr (p.parsed_categories.map .str)),
        ("assigned_categories", .arr (p.assigned_categories.map .str)),
        ("parsing_date", .str p.parsing_date),
        ("status", .str p.status)]

/-- Embedding of save_new_shops (lines 57-69): the file content produced by a
successful save is the JSON array of the asdict records, in order. -/
def save_new_shops (shops : List Point) : FileContent :=
  .json (.arr (shops.map savePoint))

/-- Field access item.get(key, default) for a string field. -/
def getStrField (fields : List (String × Json)) (k : String) (dflt : String) : String :=
  match (fields.find? (fun e => e.1 = k)).map Prod.snd with
  | some (.str s) => s
  | _ => dflt

/-- Field access item.get(key, []) for a list-of-strings field. -/
def getStrListField (fields : List (String × Json)) (k : String) : List String :=
  match (fields.find? (fun e => e.1 = k)).map Prod.snd with
  | some (.arr js) => js.filterMap (fun j => match j with | .str s => some s | _ => none)
  | _ => []

/-- Decoding of one stored record into a Point (lines 42-49): every field
defaults when missing, status defaulting to unknown. -/
def pointOfJson : Json → Option Point
  | .obj fields =>
      some { id := getStrField fields "id" ""
             name := getStrField fields "name" ""
             parsed_categories := getStrListField fields "parsed_categories"
             assigned_categories := getStrListField fields "assigned_categories"
             parsing_date := getStrField fields "parsing_date" ""
             status := getStrField fields "status" "unknown" }
  | _ => none

/-- Embedding of load_old_shops (lines 28-55): an absent file yields the empty
list, malformed content yields the empty list (the except branch), and a JSON
array of records decodes record by record; a non-record item raises inside the
try block, so the whole load degrades to the empty list. -/
def load_old_shops : FileContent → List Point
  | .absent => []
  | .malformed => []
  | .json (.arr items) =>
      match items.mapM pointOfJson with
      | some shops => shops
      | none => []
  | .json _ => []

/-- Write effects a run can perform, in program order. -/
inductive Effect where
  | writeSnapshot : List Point → Effect
  | writeReportJson : ChangeReport → Effect
  | writeReportHtml : ChangeReport → Effect

/-- One department record of the aviapark vendor payload; every field the code
reads through .get is optional. -/
structure AviaDept where
  id : Option String := none
  title : Option String := none
  categories : Option (List String) := none
  status : Option String := none

/-- Point construction of lines 515-521. -/
def pointOfAviaDept (now : String) (s : AviaDept) : Point :=
  { id := s.id.getD ""
    name := s.title.getD ""
    parsed_categories := s.categories.getD []
    parsing_date := now
    status := s.status.getD "unknown" }

/-- Embedding of parse_aviapark (lines 496-534) from the point the old shops are
loaded: the fetch outcome is passed in, and the returned trace lists the writes
the run performs in order.  The except branch (lines 510-512) returns before
any computation or write. -/
def parse_aviapark (now : String) (old_shops : List Point)
    (fetch : Except String (List AviaDept)) : Option ChangeReport × List Effect :=
  match fetch with
  | .error _ => (none, [])
  | .ok depts =>
      let new_shop_list := depts.map (pointOfAviaDept now)
      let report := analyze_changes now old_shops new_shop_list
      (some report,
        [.writeSnapshot new_shop_list, .writeReportJson report, .writeReportHtml report])

/-- One tenant record of the riviera vendor payload. -/
structure RivTenant where
  id : Option String := none
  title : Option String := none
  status : Option String := none

/-- Point construction of lines 475-481; parsed_categories is always empty here. -/
def pointOfRivTenant (now : String) (s : RivTenant) : Point :=
  { id := s.id.getD ""
    name := s.title.getD ""
    parsed_categories := []
    parsing_date := now
    status := s.status.getD "unknown" }

/-- Embedding of parse_riviera (lines 457-494), with the same shape as parse_aviapark. -/
def parse_riviera (now : String) (old_shops : List Point)
    (fetch : Except String (List RivTenant)) : Option ChangeReport × List Effect :=
  match fetch with
  | .error _ => (none, [])
  | .ok tenants =>
      let new_shop_list := tenants.map (pointOfRivTenant now)
      let report := analyze_changes now old_shops new_shop_list
      (some report,
        [.writeSnapshot new_shop_list, .writeReportJson report, .writeReportHtml report])

/-- The set of normalized names of a collection, the key set the spec speaks about. -/
def nameKeys (l : List Point) : Finset String := (l.map pointKey).toFinset

/-! ### Lemmas about the dict embedding -/

lemma any_key_iff (d : PyDict) (k : String) :
    (d.any fun e => e.1 = k) = true ↔ k ∈ dictKeys d := by
  simp [dictKeys, List.any_eq_true, List.mem_map]

lemma find?_replace_self (d : PyDict) (k : String) (v : Point)
    (h : (d.any fun e => e.1 = k) = true) :
    ((d.map fun e => if e.1 = k then (k, v) else e).find? fun e => e.1 = k) = some (k, v) := by
  induction d with
  | nil => simp at h
  | cons e t ih =>
    by_cases he : e.1 = k
    · simp only [List.map_cons, if_pos he]
      exact List.find?_cons_of_pos _ (by simp)
    · have ht : (t.any fun e => e.1 = k) = true := by
        simpa [List.any_cons, he] using h
      simp only [List.map_cons, if_neg he]
      rw [List.find?_cons_of_neg _ (by simpa using he)]
      exact ih ht

lemma find?_replace_other (d : PyDict) (k : String) (v : Point) (k2 : String)
    (h : k2 ≠ k) :
    ((d.map fun e => if e.1 = k then (k, v) else e).find? fun e => e.1 = k2)
      = d.find? fun e => e.1 = k2 := by
  induction d with
  | nil => rfl
  | cons e t ih =>
    by_cases he : e.1 = k
    · have h1 : ¬ (k = k2) := fun hh => h hh.symm
      have h2 : ¬ (e.1 = k2) := by rw [he]; exact h1
      simp only [List.map_cons, if_pos he]
      rw [List.find?_cons_of_neg _ (by simpa using h1),
          List.find?_cons_of_neg _ (by simpa using h2)]
      exact ih
    · by_cases he2 : e.1 = k2
      · simp only [List.map_cons, if_neg he]
        rw [List.find?_cons_of_pos _ (by simpa using he2),
            List.find?_cons_of_pos _ (by simpa using he2)]
      · simp only [List.map_cons, if_neg he]
        rw [List.find?_cons_of_neg _ (by simpa using he2),
            List.find?_cons_of_neg _ (by simpa using he2)]
        exact ih

lemma dictLookup_dictInsert (d : PyDict) (k : String) (v : Point) (k2 : String) :
    dictLookup (dictInsert d k v) k2 = if k2 = k then some v else dictLookup d k2 := by
  unfold dictInsert dictLookup
  by_cases hany : (d.any fun e => e.1 = k) = true
  · rw [if_pos hany]
    by_cases hk : k2 = k
    · subst hk
      rw [if_pos rfl, find?_replace_self d k2 v hany]
      rfl
    · rw [if_neg hk, find?_replace_other d k v k2 hk]
  · rw [if_neg hany]
    by_cases hk : k2 = k
    · subst hk
      have hnone : (d.find? fun e => e.1 = k2) = none := by
        rw [List.find?_eq_none]
        intro x hx
        simp only [decide_eq_true_eq]
        intro hxk
        exact hany (List.any_eq_true.mpr ⟨x, hx, by simp [hxk]⟩)
      rw [if_pos rfl, List.find?_append, hnone]
      simp
    · rw [if_neg hk, List.find?_append]
      have hsingle : ([((k, v) : String × Point)].find? fun e => e.1 = k2) = none := by
        rw [List.find?_eq_none]
        intro x hx
        simp only [List.mem_singleton] at hx
        subst hx
        simp only [decide_eq_true_eq]
        exact fun hh => hk hh.symm
      rw [hsingle]
      simp

lemma dictKeys_dictInsert (d : PyDict) (k : String) (v : Point) :
    dictKeys (dictInsert d k v)
      = if (d.any fun e => e.1 = k) = true then dictKeys d else dictKeys d ++ [k] := by
  unfold dictInsert dictKeys
  by_cases hany : (d.any fun e => e.1 = k) = true
  · rw [if_pos hany, if_pos hany, List.map_map]
    congr 1
    funext e
    by_cases he : e.1 = k
    · simp [he]
    · simp [he]
  · rw [if_neg hany, if_neg hany]
    simp

lemma buildDict_concat (l : List Point) (s : Point) :
    buildDict (l ++ [s]) = dictInsert (buildDict l) (pointKey s) s := by
  unfold buildDict
  rw [List.foldl_append]
  rfl

lemma dictLookup_buildDict (l : List Point) (k : String) :
    dictLookup (buildDict l) k = l.reverse.find? (fun s => pointKey s = k) := by
  induction l using List.reverseRecOn with
  | nil => rfl
  | append_singleton xs x ih =>
    rw [buildDict_concat, dictLookup_dictInsert, List.reverse_append]
    simp only [List.reverse_singleton, List.singleton_append]
    by_cases h : k = pointKey x
    · rw [if_pos h, List.find?_cons_of_pos _ (by simp [h])]
    · rw [if_neg h, List.find?_cons_of_neg _ ?_, ih]
      simp only [decide_eq_true_eq]
      exact fun hh => h hh.symm

lemma mem_dictKeys_buildDict (l : List Point) (k : String) :
    k ∈ dictKeys (buildDict l) ↔ k ∈ l.map pointKey := by
  induction l using List.reverseRecOn with
  | nil => exact Iff.rfl
  | append_singleton xs x ih =>
    rw [buildDict_concat, dictKeys_dictInsert, List.map_append]
    by_cases hany : ((buildDict xs).any fun e => e.1 = pointKey x) = true
    · rw [if_pos hany]
      simp only [List.mem_append, List.map_cons, List.map_nil, List.mem_singleton]
      constructor
      · intro h
        exact Or.inl (ih.mp h)
      · rintro (h | h)
        · exact ih.mpr h
        · subst h
          exact (any_key_iff _ _).mp hany
    · rw [if_neg hany]
      simp only [List.mem_append, List.map_cons, List.map_nil, List.mem_singleton, ih]

lemma nodup_dictKeys_buildDict (l : List Point) : (dictKeys (buildDict l)).Nodup := by
  induction l using List.reverseRecOn with
  | nil => exact List.nodup_nil
  | append_singleton xs x ih =>
    rw [buildDict_concat, dictKeys_dictInsert]
    by_cases hany : ((buildDict xs).any fun e => e.1 = pointKey x) = true
    · rw [if_pos hany]
      exact ih
    · rw [if_neg hany]
      rw [List.nodup_append]
      refine ⟨ih, List.nodup_singleton _, ?_⟩
      intro a ha hmem
      simp only [List.mem_singleton] at hmem
      subst hmem
      exact hany ((any_key_iff _ _).mpr ha)

lemma isSome_dictLookup (d : PyDict) (k : String) :
    (dictLookup d k).isSome = true ↔ k ∈ dictKeys d := by
  unfold dictLookup
  constructor
  · intro h
    cases hf : d.find? (fun e => e.1 = k) with
    | none => rw [hf] at h; simp at h
    | some e =>
        have he := List.find?_some hf
        have hm := List.mem_of_find?_eq_some hf
        simp only [decide_eq_true_eq] at he
        subst he
        exact List.mem_map_of_mem Prod.fst hm
  · intro h
    simp only [dictKeys, List.mem_map] at h
    obtain ⟨e, he, hek⟩ := h
    have : (d.find? fun e => e.1 = k).isSome = true :=
      List.find?_isSome.mpr ⟨e, he, by simp [hek]⟩
    cases hf : d.find? (fun e => e.1 = k) with
    | none => rw [hf] at this; simp at this
    | some q => simp [hf]

lemma dictLookup_buildDict_mem (l : List Point) (k : String) (p : Point)
    (h : dictLookup (buildDict l) k = some p) : p ∈ l ∧ pointKey p = k := by
  rw [dictLookup_buildDict] at h
  refine ⟨List.mem_reverse.mp (List.mem_of_find?_eq_some h), ?_⟩
  have hp := List.find?_some h
  simpa using hp

lemma length_filterMap_of_isSome {α β : Type} (f : α → Option β) (l : List α)
    (h : ∀ a ∈ l, (f a).isSome = true) : (l.filterMap f).length = l.length := by
  induction l with
  | nil => rfl
  | cons a t ih =>
    rw [List.filterMap_cons]
    cases hfa : f a with
    | none =>
        have := h a (List.mem_cons_self a t)
        rw [hfa] at this
        simp at this
    | some b =>
        simp only [List.length_cons]
        rw [ih (fun x hx => h x (List.mem_cons_of_mem _ hx))]

lemma length_filter_add_not {α : Type} (l : List α) (p : α → Bool) :
    (l.filter p).length + (l.filter fun a => !(p a)).length = l.length := by
  induction l with
  | nil => rfl
  | cons a t ih =>
    cases ha : p a <;> simp [List.filter_cons, ha] <;> omega

lemma toFinset_namesOf (l : List Point) : (namesOf l).toFinset = nameKeys l := by
  ext k
  simp only [namesOf, nameKeys, List.mem_toFinset]
  exact mem_dictKeys_buildDict l k

lemma nodup_namesOf (l : List Point) : (namesOf l).Nodup :=
  nodup_dictKeys_buildDict l

lemma card_nameKeys (l : List Point) : (nameKeys l).card = (namesOf l).length := by
  rw [← toFinset_namesOf]
  exact List.toFinset_card_of_nodup (nodup_namesOf l)

lemma mem_namesOf (l : List Point) (k : String) : k ∈ namesOf l ↔ k ∈ nameKeys l := by
  rw [← toFinset_namesOf, List.mem_toFinset]

lemma length_newShopsList (old_shops new_shops : List Point) :
    (newShopsList old_shops new_shops).length = (appearedNames old_shops new_shops).length := by
  apply length_filterMap_of_isSome
  intro k hk
  rw [isSome_dictLookup]
  exact List.mem_of_mem_filter hk

lemma length_disappearedShopsList (old_shops new_shops : List Point) :
    (disappearedShopsList old_shops new_shops).length
      = (disappearedNames old_shops new_shops).length := by
  apply length_filterMap_of_isSome
  intro k hk
  rw [isSome_dictLookup]
  exact List.mem_of_mem_filter hk

lemma remaining_add_disappeared (old_shops new_shops : List Point) :
    (remainingNames old_shops new_shops).length + (disappearedNames old_shops new_shops).length
      = (namesOf old_shops).length := by
  have h : disappearedNames old_shops new_shops
      = (namesOf old_shops).filter (fun n => !(decide (n ∈ namesOf new_shops))) := by
    unfold disappearedNames
    congr 1
    funext n
    simp [decide_not]
  rw [h]
  exact length_filter_add_not (namesOf old_shops) (fun n => decide (n ∈ namesOf new_shops))

lemma nodup_appearedNames (old_shops new_shops : List Point) :
    (appearedNames old_shops new_shops).Nodup :=
  (nodup_namesOf new_shops).filter _

lemma toFinset_appearedNames (old_shops new_shops : List Point) :
    (appearedNames old_shops new_shops).toFinset
      = nameKeys new_shops \ nameKeys old_shops := by
  ext k
  simp only [List.mem_toFinset, appearedNames, List.mem_filter, decide_eq_true_eq,
    Finset.mem_sdiff, mem_namesOf]

lemma card_union_nameKeys (old_shops new_shops : List Point) :
    (nameKeys old_shops ∪ nameKeys new_shops).card
      = (appearedNames old_shops new_shops).length + (namesOf old_shops).length := by
  have h1 : (appearedNames old_shops new_shops).length
      = (nameKeys new_shops \ nameKeys old_shops).card := by
    rw [← toFinset_appearedNames,
      List.toFinset_card_of_nodup (nodup_appearedNames old_shops new_shops)]
  rw [h1, ← card_nameKeys, Finset.card_sdiff_add_card, Finset.union_comm]

/-- C1: for every pair of input collections, the four classification counts of the
report add up to the number of distinct normalized names across both inputs, and
every such key falls into exactly one of the classes appeared, disappeared, common. -/
theorem spec_c1 (now : String) (old_shops new_shops : List Point) :
    ((analyze_changes now old_shops new_shops).new_shops.length
        + (analyze_changes now old_shops new_shops).disappeared_shops.length
        + (analyze_changes now old_shops new_shops).changed_shops.length
        + (analyze_changes now old_shops new_shops).stats.unchanged_count
      = (nameKeys old_shops ∪ nameKeys new_shops).card)
    ∧ (∀ k ∈ nameKeys old_shops ∪ nameKeys new_shops,
        (k ∈ appearedNames old_shops new_shops ∧ k ∉ disappearedNames old_shops new_shops
            ∧ k ∉ remainingNames old_shops new_shops)
        ∨ (k ∉ appearedNames old_shops new_shops ∧ k ∈ disappearedNames old_shops new_shops
            ∧ k ∉ remainingNames old_shops new_shops)
        ∨ (k ∉ appearedNames old_shops new_shops ∧ k ∉ disappearedNames old_shops new_shops
            ∧ k ∈ remainingNames old_shops new_shops)) := by
  constructor
  · show (newShopsList old_shops new_shops).length
        + (disappearedShopsList old_shops new_shops).length
        + (changedShopsList old_shops new_shops).length
        + ((remainingNames old_shops new_shops).length
            - (changedShopsList old_shops new_shops).length)
      = (nameKeys old_shops ∪ nameKeys new_shops).card
    rw [length_newShopsList, length_disappearedShopsList, card_union_nameKeys]
    have hc : (changedShopsList old_shops new_shops).length
        ≤ (remainingNames old_shops new_shops).length := List.length_filterMap_le _ _
    have hrd := remaining_add_disappeared old_shops new_shops
    omega
  · intro k hk
    rw [Finset.mem_union] at hk
    simp only [← mem_namesOf] at hk
    simp only [appearedNames, disappearedNames, remainingNames, List.mem_filter,
      decide_eq_true_eq]
    by_cases h1 : k ∈ namesOf old_shops <;> by_cases h2 : k ∈ namesOf new_shops <;> tauto

theorem spec_c1_witness :
    ("shop a" ∈ nameKeys [⟨"1", "Shop A", [], [], "", "opened"⟩]
        ∪ nameKeys [⟨"2", "Shop B", [], [], "", "opened"⟩])
    ∧ (("shop a" ∈ appearedNames [⟨"1", "Shop A", [], [], "", "opened"⟩]
            [⟨"2", "Shop B", [], [], "", "opened"⟩]
          ∧ "shop a" ∉ disappearedNames [⟨"1", "Shop A", [], [], "", "opened"⟩]
            [⟨"2", "Shop B", [], [], "", "opened"⟩]
          ∧ "shop a" ∉ remainingNames [⟨"1", "Shop A", [], [], "", "opened"⟩]
            [⟨"2", "Shop B", [], [], "", "opened"⟩])
        ∨ ("shop a" ∉ appearedNames [⟨"1", "Shop A", [], [], "", "opened"⟩]
            [⟨"2", "Shop B", [], [], "", "opened"⟩]
          ∧ "shop a" ∈ disappearedNames [⟨"1", "Shop A", [], [], "", "opened"⟩]
            [⟨"2", "Shop B", [], [], "", "opened"⟩]
          ∧ "shop a" ∉ remainingNames [⟨"1", "Shop A", [], [], "", "opened"⟩]
            [⟨"2", "Shop B", [], [], "", "opened"⟩])
        ∨ ("shop a" ∉ appearedNames [⟨"1", "Shop A", [], [], "", "opened"⟩]
            [⟨"2", "Shop B", [], [], "", "opened"⟩]
          ∧ "shop a" ∉ disappearedNames [⟨"1", "Shop A", [], [], "", "opened"⟩]
            [⟨"2", "Shop B", [], [], "", "opened"⟩]
          ∧ "shop a" ∈ remainingNames [⟨"1", "Shop A", [], [], "", "opened"⟩]
            [⟨"2", "Shop B", [], [], "", "opened"⟩])) :=
  ⟨by decide,
    (spec_c1 "d" [⟨"1", "Shop A", [], [], "", "opened"⟩]
        [⟨"2", "Shop B", [], [], "", "opened"⟩]).2 "shop a" (by decide)⟩

lemma detectChanges_self (p : Point) : (detectChanges p p).nonempty = false := by
  unfold detectChanges Changes.nonempty
  simp [listSetEq, List.all_eq_true]

lemma changeEntry_self (d : PyDict) (name : String) : changeEntry d d name = none := by
  unfold changeEntry
  cases h : dictLookup d name with
  | none => rfl
  | some p => simp [detectChanges_self p]

lemma appearedNames_self (X : List Point) : appearedNames X X = [] := by
  unfold appearedNames
  rw [List.filter_eq_nil_iff]
  intro a ha
  simp [ha]

lemma disappearedNames_self (X : List Point) : disappearedNames X X = [] := by
  unfold disappearedNames
  rw [List.filter_eq_nil_iff]
  intro a ha
  simp [ha]

lemma remainingNames_self (X : List Point) : remainingNames X X = namesOf X := by
  unfold remainingNames
  rw [List.filter_eq_self]
  intro a ha
  simp [ha]

/-- C2: diffing a collection against itself yields no new, disappeared or changed
shops, and the unchanged count is the number of distinct normalized names of the
input, that is its size after name-based deduplication. -/
theorem spec_c2 (now : String) (X : List Point) :
    (analyze_changes now X X).new_shops = []
    ∧ (analyze_changes now X X).disappeared_shops = []
    ∧ (analyze_changes now X X).changed_shops = []
    ∧ (analyze_changes now X X).stats.unchanged_count = (nameKeys X).card := by
  have hnew : newShopsList X X = [] := by
    unfold newShopsList
    rw [appearedNames_self]
    rfl
  have hdis : disappearedShopsList X X = [] := by
    unfold disappearedShopsList
    rw [disappearedNames_self]
    rfl
  have hchg : changedShopsList X X = [] := by
    unfold changedShopsList
    rw [List.filterMap_eq_nil_iff]
    intro a _
    exact changeEntry_self _ a
  refine ⟨hnew, hdis, hchg, ?_⟩
  show (remainingNames X X).length - (changedShopsList X X).length = (nameKeys X).card
  rw [hchg, remainingNames_self, card_nameKeys]
  rfl

/-- C3: names differing only by case or surrounding whitespace reconcile as one
entity; on the spec example the diff reports Shop B as new, nothing disappeared,
and one changed entry for Shop A carrying a status change opened to closed and a
categories change with added drinks and nothing removed. -/
theorem spec_c3 :
    (analyze_changes "2024-01-01" [⟨"1", "Shop A", ["food"], [], "", "opened"⟩]
        [⟨"1", "shop a", ["food", "drinks"], [], "", "closed"⟩,
         ⟨"2", "Shop B", [], [], "", "opened"⟩]).new_shops
      = [⟨"2", "Shop B", [], [], "", "opened"⟩]
    ∧ (analyze_changes "2024-01-01" [⟨"1", "Shop A", ["food"], [], "", "opened"⟩]
        [⟨"1", "shop a", ["food", "drinks"], [], "", "closed"⟩,
         ⟨"2", "Shop B", [], [], "", "opened"⟩]).disappeared_shops = []
    ∧ (analyze_changes "2024-01-01" [⟨"1", "Shop A", ["food"], [], "", "opened"⟩]
        [⟨"1", "shop a", ["food", "drinks"], [], "", "closed"⟩,
         ⟨"2", "Shop B", [], [], "", "opened"⟩]).changed_shops
      = [⟨"Shop A", ⟨"1", "Shop A", ["food"], [], "", "opened"⟩,
          ⟨"1", "shop a", ["food", "drinks"], [], "", "closed"⟩,
          ⟨none, some ⟨"opened", "closed"⟩, some ⟨["drinks"], [], 1, 2⟩⟩⟩] := by
  refine ⟨?_, ?_, ?_⟩ <;> decide

lemma pyRound2_natMul100 (n : ℕ) : pyRound2 ((n : ℚ) * 100) = 100 * n := by
  unfold pyRound2
  have hx : ((n : ℚ) * 100) * 100 = ((10000 * n : ℤ) : ℚ) := by push_cast; ring
  simp only [hx, Int.floor_intCast, sub_self]
  rw [if_pos (by norm_num : (0 : ℚ) < 1 / 2)]
  push_cast
  ring

/-- C4: the percentage stat is the rounded relative change of the raw input
lengths with the denominator floored at one, and on an empty old baseline it
equals one hundred times the length of the new input while every deduplicated
Point of the new input lands in new_shops. -/
theorem spec_c4 :
    (∀ (now : String) (old_shops new_shops : List Point),
        (analyze_changes now old_shops new_shops).stats.total_before = old_shops.length
        ∧ (analyze_changes now old_shops new_shops).stats.total_after = new_shops.length
        ∧ (analyze_changes now old_shops new_shops).stats.change_percentage
            = pyRound2 (((new_shops.length : ℚ) - (old_shops.length : ℚ))
                / max (old_shops.length : ℚ) 1 * 100))
    ∧ (∀ (now : String) (new_shops : List Point),
        (analyze_changes now [] new_shops).stats.change_percentage
            = 100 * new_shops.length
        ∧ ∀ (k : String) (p : Point), dictLookup (buildDict new_shops) k = some p →
            p ∈ (analyze_changes now [] new_shops).new_shops) := by
  refine ⟨fun now old_shops new_shops => ⟨rfl, rfl, rfl⟩, fun now new_shops => ⟨?_, ?_⟩⟩
  · show pyRound2 (((new_shops.length : ℚ) - ((List.length ([] : List Point) : ℕ) : ℚ))
        / max ((List.length ([] : List Point) : ℕ) : ℚ) 1 * 100) = 100 * new_shops.length
    have h : ((new_shops.length : ℚ) - ((List.length ([] : List Point) : ℕ) : ℚ))
        / max ((List.length ([] : List Point) : ℕ) : ℚ) 1 * 100
        = (new_shops.length : ℚ) * 100 := by
      norm_num
    rw [h, pyRound2_natMul100]
  · intro k p hk
    show p ∈ newShopsList [] new_shops
    unfold newShopsList
    rw [List.mem_filterMap]
    refine ⟨k, ?_, hk⟩
    unfold appearedNames
    rw [List.mem_filter]
    constructor
    · have hs : (dictLookup (buildDict new_shops) k).isSome = true := by
        rw [hk]; rfl
      exact (isSome_dictLookup _ _).mp hs
    · simp [namesOf, buildDict, dictKeys]

theorem spec_c4_witness :
    (dictLookup (buildDict [⟨"1", "x", [], [], "", "opened"⟩]) "x"
        = some ⟨"1", "x", [], [], "", "opened"⟩)
    ∧ (⟨"1", "x", [], [], "", "opened"⟩ : Point)
        ∈ (analyze_changes "d" [] [⟨"1", "x", [], [], "", "opened"⟩]).new_shops :=
  ⟨by decide, (spec_c4.2 "d" [⟨"1", "x", [], [], "", "opened"⟩]).2 "x" _ (by decide)⟩

/-- C5: in the lookup maps the last Point with a given normalized name in
iteration order survives (lookup is the last matching element), and the three
classification lists of the report depend on each side only through its map, so
only the surviving Point takes part in classification and change detection. -/
theorem spec_c5 :
    (∀ (shops : List Point) (k : String),
        dictLookup (buildDict shops) k
          = shops.reverse.find? (fun s => pointKey s = k))
    ∧ (∀ (now : String) (old_shops old_shops2 new_shops new_shops2 : List Point),
        buildDict old_shops2 = buildDict old_shops →
        buildDict new_shops2 = buildDict new_shops →
        (analyze_changes now old_shops2 new_shops2).new_shops
            = (analyze_changes now old_shops new_shops).new_shops
        ∧ (analyze_changes now old_shops2 new_shops2).disappeared_shops
            = (analyze_changes now old_shops new_shops).disappeared_shops
        ∧ (analyze_changes now old_shops2 new_shops2).changed_shops
            = (analyze_changes now old_shops new_shops).changed_shops) := by
  refine ⟨dictLookup_buildDict, ?_⟩
  intro now old_shops old_shops2 new_shops new_shops2 ho hn
  refine ⟨?_, ?_, ?_⟩
  · show newShopsList old_shops2 new_shops2 = newShopsList old_shops new_shops
    unfold newShopsList appearedNames namesOf
    rw [ho, hn]
  · show disappearedShopsList old_shops2 new_shops2
        = disappearedShopsList old_shops new_shops
    unfold disappearedShopsList disappearedNames namesOf
    rw [ho, hn]
  · show changedShopsList old_shops2 new_shops2 = changedShopsList old_shops new_shops
    unfold changedShopsList remainingNames namesOf
    rw [ho, hn]

theorem spec_c5_witness :
    (buildDict [(⟨"1", "Shop A", [], [], "", "opened"⟩ : Point)]
        = buildDict [⟨"1", "Shop A", [], [], "", "opened"⟩])
    ∧ (buildDict [(⟨"3", "Shop B", ["b"], [], "", "closed"⟩ : Point)]
        = buildDict [⟨"2", "shop b", [], [], "", "opened"⟩,
                     ⟨"3", "Shop B", ["b"], [], "", "closed"⟩])
    ∧ ((analyze_changes "d" [⟨"1", "Shop A", [], [], "", "opened"⟩]
            [⟨"3", "Shop B", ["b"], [], "", "closed"⟩]).new_shops
        = (analyze_changes "d" [⟨"1", "Shop A", [], [], "", "opened"⟩]
            [⟨"2", "shop b", [], [], "", "opened"⟩,
             ⟨"3", "Shop B", ["b"], [], "", "closed"⟩]).new_shops
      ∧ (analyze_changes "d" [⟨"1", "Shop A", [], [], "", "opened"⟩]
            [⟨"3", "Shop B", ["b"], [], "", "closed"⟩]).disappeared_shops
        = (analyze_changes "d" [⟨"1", "Shop A", [], [], "", "opened"⟩]
            [⟨"2", "shop b", [], [], "", "opened"⟩,
             ⟨"3", "Shop B", ["b"], [], "", "closed"⟩]).disappeared_shops
      ∧ (analyze_changes "d" [⟨"1", "Shop A", [], [], "", "opened"⟩]
            [⟨"3", "Shop B", ["b"], [], "", "closed"⟩]).changed_shops
        = (analyze_changes "d" [⟨"1", "Shop A", [], [], "", "opened"⟩]
            [⟨"2", "shop b", [], [], "", "opened"⟩,
             ⟨"3", "Shop B", ["b"], [], "", "closed"⟩]).changed_shops) :=
  ⟨by decide, by decide,
    spec_c5.2 "d" [⟨"1", "Shop A", [], [], "", "opened"⟩]
      [⟨"1", "Shop A", [], [], "", "opened"⟩]
      [⟨"2", "shop b", [], [], "", "opened"⟩,
       ⟨"3", "Shop B", ["b"], [], "", "closed"⟩]
      [⟨"3", "Shop B", ["b"], [], "", "closed"⟩]
      (by decide) (by decide)⟩

/-- C7: the diff engine is deterministic in its two inputs; all report fields
other than the date stamp agree across two runs with equal inputs, and the date
field is exactly the supplied time stamp. -/
theorem spec_c7 (d1 d2 : String) (old_shops new_shops : List Point) :
    (analyze_changes d1 old_shops new_shops).total_before
        = (analyze_changes d2 old_shops new_shops).total_before
    ∧ (analyze_changes d1 old_shops new_shops).total_after
        = (analyze_changes d2 old_shops new_shops).total_after
    ∧ (analyze_changes d1 old_shops new_shops).new_shops
        = (analyze_changes d2 old_shops new_shops).new_shops
    ∧ (analyze_changes d1 old_shops new_shops).disappeared_shops
        = (analyze_changes d2 old_shops new_shops).disappeared_shops
    ∧ (analyze_changes d1 old_shops new_shops).changed_shops
        = (analyze_changes d2 old_shops new_shops).changed_shops
    ∧ (analyze_changes d1 old_shops new_shops).stats
        = (analyze_changes d2 old_shops new_shops).stats
    ∧ (analyze_changes d1 old_shops new_shops).date = d1 :=
  ⟨rfl, rfl, rfl, rfl, rfl, rfl, rfl⟩

/-- C8: when the vendor fetch fails, the run returns no report and performs no
write at all, for both ingestion routines. -/
theorem spec_c8 (now : String) (old_shops : List Point) (msg : String) :
    parse_aviapark now old_shops (Except.error msg) = (none, [])
    ∧ parse_riviera now old_shops (Except.error msg) = (none, []) :=
  ⟨rfl, rfl⟩

/-- C10: every changed_shops entry carries as its top-level name the original,
un-normalized name of the old Point; the old and new snapshots in the entry are
Points of the respective inputs. -/
theorem spec_c10 (now : String) (old_shops new_shops : List Point) (e : ChangedShop)
    (he : e ∈ (analyze_changes now old_shops new_shops).changed_shops) :
    e.name = e.old_shop.name ∧ e.old_shop ∈ old_shops ∧ e.new_shop ∈ new_shops := by
  have he2 : e ∈ changedShopsList old_shops new_shops := he
  unfold changedShopsList at he2
  rw [List.mem_filterMap] at he2
  obtain ⟨name, _, hce⟩ := he2
  unfold changeEntry at hce
  cases ho : dictLookup (buildDict old_shops) name <;>
    cases hn : dictLookup (buildDict new_shops) name <;>
    rw [ho, hn] at hce <;> simp only [] at hce
  · exact absurd hce (by simp)
  · exact absurd hce (by simp)
  · exact absurd hce (by simp)
  · rename_i o n
    by_cases hne : (detectChanges o n).nonempty = true
    · rw [if_pos hne] at hce
      have hoe := dictLookup_buildDict_mem old_shops name o ho
      have hne2 := dictLookup_buildDict_mem new_shops name n hn
      cases hce
      exact ⟨rfl, hoe.1, hne2.1⟩
    · rw [if_neg hne] at hce
      exact absurd hce (by simp)

theorem spec_c10_witness :
    ((⟨"Shop A", ⟨"1", "Shop A", [], [], "", "opened"⟩,
        ⟨"2", " shop a", [], [], "", "opened"⟩,
        ⟨some ⟨"1", "2"⟩, none, none⟩⟩ : ChangedShop)
      ∈ (analyze_changes "d" [⟨"1", "Shop A", [], [], "", "opened"⟩]
          [⟨"2", " shop a", [], [], "", "opened"⟩]).changed_shops)
    ∧ ((⟨"Shop A", ⟨"1", "Shop A", [], [], "", "opened"⟩,
        ⟨"2", " shop a", [], [], "", "opened"⟩,
        ⟨some ⟨"1", "2"⟩, none, none⟩⟩ : ChangedShop).name
        = (⟨"Shop A", ⟨"1", "Shop A", [], [], "", "opened"⟩,
            ⟨"2", " shop a", [], [], "", "opened"⟩,
            ⟨some ⟨"1", "2"⟩, none, none⟩⟩ : ChangedShop).old_shop.name
      ∧ (⟨"Shop A", ⟨"1", "Shop A", [], [], "", "opened"⟩,
          ⟨"2", " shop a", [], [], "", "opened"⟩,
          ⟨some ⟨"1", "2"⟩, none, none⟩⟩ : ChangedShop).old_shop
          ∈ [(⟨"1", "Shop A", [], [], "", "opened"⟩ : Point)]
      ∧ (⟨"Shop A", ⟨"1", "Shop A", [], [], "", "opened"⟩,
          ⟨"2", " shop a", [], [], "", "opened"⟩,
          ⟨some ⟨"1", "2"⟩, none, none⟩⟩ : ChangedShop).new_shop
          ∈ [(⟨"2", " shop a", [], [], "", "opened"⟩ : Point)]) :=
  ⟨by decide,
    spec_c10 "d" [⟨"1", "Shop A", [], [], "", "opened"⟩]
      [⟨"2", " shop a", [], [], "", "opened"⟩]
      ⟨"Shop A", ⟨"1", "Shop A", [], [], "", "opened"⟩,
        ⟨"2", " shop a", [], [], "", "opened"⟩,
        ⟨some ⟨"1", "2"⟩, none, none⟩⟩ (by decide)⟩

lemma filterMap_str (l : List String) :
    List.filterMap ((fun j => match j with | Json.str s => some s | _ => none) ∘ Json.str)
      l = l := by
  induction l with
  | nil => rfl
  | cons a t ih =>
    rw [List.filterMap_cons]
    simp [ih]

lemma pointOfJson_savePoint (p : Point) : pointOfJson (savePoint p) = some p := by
  simp [pointOfJson, savePoint, getStrField, getStrListField, List.find?, filterMap_str]

lemma mapM_loop_savePoint (l : List Point) (acc : List Point) :
    List.mapM.loop pointOfJson (l.map savePoint) acc = some (acc.reverse ++ l) := by
  induction l generalizing acc with
  | nil => simp [List.mapM.loop]
  | cons a t ih =>
    rw [List.map_cons]
    simp [List.mapM.loop, pointOfJson_savePoint, ih]

lemma mapM_pointOfJson_savePoint (l : List Point) :
    (l.map savePoint).mapM pointOfJson = some l := by
  have h := mapM_loop_savePoint l []
  simpa [List.mapM] using h

/-- C6: saving a collection of Points and loading the result reconstructs the
same collection, field for field and in the same order. -/
theorem spec_c6 (pts : List Point) : load_old_shops (save_new_shops pts) = pts := by
  show (match (pts.map savePoint).mapM pointOfJson with
        | some shops => shops
        | none => []) = pts
  rw [mapM_pointOfJson_savePoint]

/-- C9: loading from an absent path yields the empty collection, malformed
content also yields the empty collection, and each field missing from a stored
record defaults to its neutral value, with status defaulting to unknown. -/
theorem spec_c9 :
    load_old_shops FileContent.absent = []
    ∧ load_old_shops FileContent.malformed = []
    ∧ (∀ (fields : List (String × Json)) (p : Point),
        pointOfJson (Json.obj fields) = some p →
        ((fields.find? (fun e => e.1 = "id")) = none → p.id = "")
        ∧ ((fields.find? (fun e => e.1 = "name")) = none → p.name = "")
        ∧ ((fields.find? (fun e => e.1 = "parsed_categories")) = none →
            p.parsed_categories = [])
        ∧ ((fields.find? (fun e => e.1 = "assigned_categories")) = none →
            p.assigned_categories = [])
        ∧ ((fields.find? (fun e => e.1 = "parsing_date")) = none → p.parsing_date = "")
        ∧ ((fields.find? (fun e => e.1 = "status")) = none → p.status = "unknown")) := by
  refine ⟨rfl, rfl, ?_⟩
  intro fields p hp
  unfold pointOfJson at hp
  cases hp
  refine ⟨?_, ?_, ?_, ?_, ?_, ?_⟩ <;> intro hf <;> simp [getStrField, getStrListField, hf]

theorem spec_c9_witness :
    (pointOfJson (Json.obj []) = some ⟨"", "", [], [], "", "unknown"⟩)
    ∧ (([] : List (String × Json)).find? (fun e => e.1 = "status") = none)
    ∧ (⟨"", "", [], [], "", "unknown"⟩ : Point).status = "unknown" :=
  ⟨rfl, rfl,
    ((spec_c9.2.2 [] ⟨"", "", [], [], "", "unknown"⟩ rfl).2.2.2.2.2) rfl⟩
